import Mathlib

/-!
Verification of the override-store and top-users service in `src/pseudoAPI.py`.

The Python module is embedded shallowly:

* JSON values are modelled by `JsonVal` (integers only for numbers; string
  serialization is modelled faithfully for strings without control or
  non-ASCII characters, which is all the service ever stores).
* The backing file `test_ids.json` is modelled by `FileState`: the file can
  be missing (`open` raises), unreadable (the read raises), present but not
  valid JSON (`json.load` raises), or valid JSON with a raw text and the
  parsed value.
* Handlers that can raise an unhandled Python exception return `none` for
  their response; the states the service actually reaches never do.
* The BigQuery client is an opaque collaborator, modelled by the outcome of
  the one query the service issues (`BQOutcome`).
-/

/-- A JSON value as produced by Python's `json.load`. Numbers are modelled
as integers (the service only ever stores strings, so this loses nothing
relevant). -/
inductive JsonVal where
  | null : JsonVal
  | bool : Bool → JsonVal
  | num : Int → JsonVal
  | str : String → JsonVal
  | arr : List JsonVal → JsonVal
  | obj : List (String × JsonVal) → JsonVal

mutual

/-- Structural equality test on `JsonVal`. -/
def JsonVal.beq : JsonVal → JsonVal → Bool
  | .null, .null => true
  | .bool a, .bool b => a = b
  | .num a, .num b => a = b
  | .str a, .str b => a = b
  | .arr xs, .arr ys => JsonVal.beqList xs ys
  | .obj xs, .obj ys => JsonVal.beqFields xs ys
  | _, _ => false

/-- Elementwise equality test on JSON arrays. -/
def JsonVal.beqList : List JsonVal → List JsonVal → Bool
  | [], [] => true
  | x :: xs, y :: ys => JsonVal.beq x y && JsonVal.beqList xs ys
  | _, _ => false

/-- Entrywise equality test on JSON object field lists. -/
def JsonVal.beqFields : List (String × JsonVal) → List (String × JsonVal) → Bool
  | [], [] => true
  | (k, v) :: xs, (l, w) :: ys => k = l && (JsonVal.beq v w && JsonVal.beqFields xs ys)
  | _, _ => false

end

mutual

theorem JsonVal.beq_iff : ∀ a b : JsonVal, JsonVal.beq a b = true ↔ a = b
  | .null, .null => by simp [JsonVal.beq]
  | .bool a, .bool b => by simp [JsonVal.beq]
  | .num a, .num b => by simp [JsonVal.beq]
  | .str a, .str b => by simp [JsonVal.beq]
  | .arr xs, .arr ys => by simp [JsonVal.beq, JsonVal.beqList_iff xs ys]
  | .obj xs, .obj ys => by simp [JsonVal.beq, JsonVal.beqFields_iff xs ys]
  | .null, .bool _ | .null, .num _ | .null, .str _ | .null, .arr _ | .null, .obj _
  | .bool _, .null | .bool _, .num _ | .bool _, .str _ | .bool _, .arr _ | .bool _, .obj _
  | .num _, .null | .num _, .bool _ | .num _, .str _ | .num _, .arr _ | .num _, .obj _
  | .str _, .null | .str _, .bool _ | .str _, .num _ | .str _, .arr _ | .str _, .obj _
  | .arr _, .null | .arr _, .bool _ | .arr _, .num _ | .arr _, .str _ | .arr _, .obj _
  | .obj _, .null | .obj _, .bool _ | .obj _, .num _ | .obj _, .str _ | .obj _, .arr _ => by
      simp [JsonVal.beq]

theorem JsonVal.beqList_iff : ∀ xs ys : List JsonVal, JsonVal.beqList xs ys = true ↔ xs = ys
  | [], [] => by simp [JsonVal.beqList]
  | x :: xs, y :: ys => by
      simp [JsonVal.beqList, JsonVal.beq_iff x y, JsonVal.beqList_iff xs ys]
  | [], _ :: _ => by simp [JsonVal.beqList]
  | _ :: _, [] => by simp [JsonVal.beqList]

theorem JsonVal.beqFields_iff :
    ∀ xs ys : List (String × JsonVal), JsonVal.beqFields xs ys = true ↔ xs = ys
  | [], [] => by simp [JsonVal.beqFields]
  | (k, v) :: xs, (l, w) :: ys => by
      simp [JsonVal.beqFields, JsonVal.beq_iff v w, JsonVal.beqFields_iff xs ys, and_assoc]
  | [], _ :: _ => by simp [JsonVal.beqFields]
  | _ :: _, [] => by simp [JsonVal.beqFields]

end

instance : DecidableEq JsonVal := fun a b =>
  decidable_of_iff (JsonVal.beq a b = true) (JsonVal.beq_iff a b)

/-- Key lookup in a parsed JSON object, matching Python `dict` semantics
for duplicate keys in the source text (the last binding wins). -/
def objGet (kvs : List (String × JsonVal)) (k : String) : Option JsonVal :=
  ((kvs.filter fun kv => kv.1 = k).getLast?).map (fun kv => kv.2)

/-- One character of Python `json.dump` string output (default
`ensure_ascii` settings; faithful for printable ASCII, which is all the
service stores). -/
def escapeChar (c : Char) : String :=
  if c = '"' then "\\\""
  else if c = '\\' then "\\\\"
  else String.mk [c]

/-- Python `json.dump` output for a string literal. -/
def quoteStr (s : String) : String :=
  "\"" ++ String.join (s.data.map escapeChar) ++ "\""

mutual

/-- Python `json.dump(v, f)` output text with the default separators
`", "` and `": "`. -/
def dumpJson : JsonVal → String
  | .null => "null"
  | .bool b => if b then "true" else "false"
  | .num n => toString n
  | .str s => quoteStr s
  | .arr xs => "[" ++ dumpElems xs ++ "]"
  | .obj kvs => "\x7b" ++ dumpFields kvs ++ "\x7d"

/-- Comma-separated `json.dump` output of array elements. -/
def dumpElems : List JsonVal → String
  | [] => ""
  | [x] => dumpJson x
  | x :: y :: xs => dumpJson x ++ ", " ++ dumpElems (y :: xs)

/-- Comma-separated `json.dump` output of object entries. -/
def dumpFields : List (String × JsonVal) → String
  | [] => ""
  | [kv] => quoteStr kv.1 ++ ": " ++ dumpJson kv.2
  | kv :: y :: xs => quoteStr kv.1 ++ ": " ++ dumpJson kv.2 ++ ", " ++ dumpFields (y :: xs)

end

/-- The state of the backing file `test_ids.json`. -/
inductive FileState where
  /-- No file: `open(..., "r")` raises `FileNotFoundError`. -/
  | missing : FileState
  /-- The file exists but reading it raises (permissions, I/O error). -/
  | unreadable : FileState
  /-- The file holds `raw`, which `json.load` fails to parse. -/
  | invalidJson : String → FileState
  /-- The file holds `raw`, which `json.load` parses to `val`. -/
  | validJson : String → JsonVal → FileState
deriving DecidableEq

/-- `load_test_ids` (src/pseudoAPI.py:63-68): opens the file, parses it and
returns `.get("ids", [])`; the bare `except:` turns every failure (missing
file, unreadable content, invalid JSON, parsed value not a dict) into `[]`.
When the parsed dict has an `"ids"` key its value is returned as-is,
whatever its type. -/
def load_test_ids : FileState → JsonVal
  | .validJson _ (.obj kvs) => (objGet kvs "ids").getD (.arr [])
  | _ => .arr []

/-- `save_test_ids` (src/pseudoAPI.py:70-72): overwrites the file with
`json.dump({"ids": ids}, f)`. -/
def save_test_ids (ids : JsonVal) : FileState :=
  .validJson (dumpJson (.obj [("ids", ids)])) (.obj [("ids", ids)])

/-- Python truthiness (`if TEST_PSEUDO_IDS:`) of a parsed JSON value. -/
def pyTruthy : JsonVal → Bool
  | .null => false
  | .bool b => b
  | .num n => n ≠ 0
  | .str s => s ≠ ""
  | .arr xs => xs ≠ []
  | .obj kvs => kvs ≠ []

/-- Python `pid in v` for a string `pid`: membership for lists (string
equality, since `pid == x` holds only for the equal string), substring test
for strings, key test for dicts; `none` models the `TypeError` raised for
the remaining types. -/
def pyContains (v : JsonVal) (pid : String) : Option Bool :=
  match v with
  | .arr xs => some (xs.contains (.str pid))
  | .str s => some (decide (pid.toList <:+: s.toList))
  | .obj kvs => some (kvs.any fun kv => kv.1 = pid)
  | _ => none

/-- Python `ids.remove(pid)` on a list: drop the first element equal to
`pid` (only equal strings compare equal to `pid`). -/
def removeFirstMatch (pid : String) : List JsonVal → List JsonVal
  | [] => []
  | x :: xs => if x = .str pid then xs else x :: removeFirstMatch pid xs

/-- Python `len(v)` where defined; `none` models the `TypeError` for
non-sized values. -/
def pyLen : JsonVal → Option Nat
  | .str s => some s.length
  | .arr xs => some xs.length
  | .obj kvs => some kvs.length
  | _ => none

/-- The comprehension `[{"user_pseudo_id": pid} for pid in v]`: iterates
list elements, string characters or dict keys; `none` models the
`TypeError` for non-iterable values. -/
def wrapRecords : JsonVal → Option JsonVal
  | .arr xs => some (.arr (xs.map fun x => .obj [("user_pseudo_id", x)]))
  | .str s => some (.arr (s.data.map fun c => .obj [("user_pseudo_id", .str (String.mk [c]))]))
  | .obj kvs => some (.arr (kvs.map fun kv => .obj [("user_pseudo_id", .str kv.1)]))
  | _ => none

/-- An HTTP response: status code and JSON body. A plain `dict` return from
a FastAPI handler is serialized with status 200. -/
structure Response where
  statusCode : Nat
  body : JsonVal
deriving DecidableEq

/-- Outcome of one handler call on the store: the response (`none` models
an unhandled Python exception), the resulting file state, and whether
`save_test_ids` ran during the call. -/
structure MutationResult where
  response : Option Response
  fileState : FileState
  wrote : Bool
deriving DecidableEq

/-- `get_test_ids` (src/pseudoAPI.py:137-139): `GET /test-ids`. -/
def get_test_ids (s : FileState) : Response :=
  ⟨200, .obj [("ids", load_test_ids s)]⟩

/-- `add_test_id` (src/pseudoAPI.py:141-147): `POST /test-ids?pid=…`. Loads
the list, appends `pid` and saves only if `pid not in ids`, and returns
`{"status": "added", "ids": ids}`. On a non-list load result the `in` test
or `.append` can raise (`TypeError`/`AttributeError`), modelled as a `none`
response with no write. -/
def add_test_id (pid : String) (s : FileState) : MutationResult :=
  let ids := load_test_ids s
  match pyContains ids pid with
  | none => ⟨none, s, false⟩
  | some true =>
      ⟨some ⟨200, .obj [("status", .str "added"), ("ids", ids)]⟩, s, false⟩
  | some false =>
      match ids with
      | .arr xs =>
          let ids' := JsonVal.arr (xs ++ [.str pid])
          ⟨some ⟨200, .obj [("status", .str "added"), ("ids", ids')]⟩, save_test_ids ids', true⟩
      | _ => ⟨none, s, false⟩

/-- `delete_test_id` (src/pseudoAPI.py:149-155): `DELETE /test-ids/{pid}`.
Loads the list, removes the first match if `pid in ids`, saves
unconditionally, and returns `{"status": "deleted", "ids": ids}`. On a
non-list load result the `in` test or `.remove` can raise, modelled as a
`none` response with no write. -/
def delete_test_id (pid : String) (s : FileState) : MutationResult :=
  let ids := load_test_ids s
  match pyContains ids pid with
  | none => ⟨none, s, false⟩
  | some true =>
      match ids with
      | .arr xs =>
          let ids' := JsonVal.arr (removeFirstMatch pid xs)
          ⟨some ⟨200, .obj [("status", .str "deleted"), ("ids", ids')]⟩, save_test_ids ids', true⟩
      | _ => ⟨none, s, false⟩
  | some false =>
      ⟨some ⟨200, .obj [("status", .str "deleted"), ("ids", ids)]⟩, save_test_ids ids, true⟩

/-- Outcome of the one BigQuery query the service issues: either the rows
of the dataframe (`df.to_dict(orient="records")` representation) or an
exception with its message (raised anywhere inside the `try`). -/
inductive BQOutcome where
  | rows : List (List (String × JsonVal)) → BQOutcome
  | raises : String → BQOutcome
deriving DecidableEq

/-- What one `GET /top-users` request did: whether it read the override
file, whether it entered the BigQuery fallback, and its response (`none`
models an unhandled exception). -/
structure TopUsersTrace where
  consultedStore : Bool
  queriedWarehouse : Bool
  response : Option Response
deriving DecidableEq

/-- The hard-coded testing-mode list in `get_top_users`
(src/pseudoAPI.py:166-169). -/
def TESTING_TOP_USERS : List String :=
  ["1949675162.1731393103", "807797374.1729185992"]

/-- `get_top_users` (src/pseudoAPI.py:161-204): `GET /top-users`. In
`"testing"` mode it returns the hard-coded list without touching the file.
Otherwise it loads the override file; a truthy result is returned wrapped
as records, and only a falsy result falls through to the BigQuery block,
whose `try` turns zero rows into a 404 and any exception into a 500. -/
def get_top_users (mode : String) (s : FileState) (bq : BQOutcome) : TopUsersTrace :=
  if mode = "testing" then
    { consultedStore := false, queriedWarehouse := false,
      response := some ⟨200, .obj [("status", .str "success"),
        ("count", .num TESTING_TOP_USERS.length),
        ("data", .arr (TESTING_TOP_USERS.map fun pid => .obj [("user_pseudo_id", .str pid)]))]⟩ }
  else
    let tpi := load_test_ids s
    if pyTruthy tpi then
      { consultedStore := true, queriedWarehouse := false,
        response :=
          match pyLen tpi, wrapRecords tpi with
          | some n, some d =>
              some ⟨200, .obj [("status", .str "success"), ("count", .num n), ("data", d)]⟩
          | _, _ => none }
    else
      { consultedStore := true, queriedWarehouse := true,
        response :=
          match bq with
          | .raises msg => some ⟨500, .obj [("status", .str "error"), ("message", .str msg)]⟩
          | .rows rs =>
              if rs.isEmpty then
                some ⟨404, .obj [("message", .str "No data found for the given date range.")]⟩
              else
                some ⟨200, .obj [("status", .str "success"), ("count", .num rs.length),
                  ("data", .arr (rs.map JsonVal.obj))]⟩ }

/-- The JSON array holding a list of identifier strings. -/
def strList (ids : List String) : JsonVal := .arr (ids.map .str)

/-- The backing file currently stores exactly the identifier list `ids`
(whatever its raw formatting). -/
def storesList (s : FileState) (ids : List String) : Prop :=
  load_test_ids s = strList ids

/-- The canonical file produced by saving `ids`. -/
def mkFile (ids : List String) : FileState := save_test_ids (strList ids)

theorem load_save_test_ids (v : JsonVal) : load_test_ids (save_test_ids v) = v := by
  simp [load_test_ids, save_test_ids, objGet]

theorem mkFile_storesList (ids : List String) : storesList (mkFile ids) ids := by
  simp [storesList, mkFile, load_save_test_ids]

theorem pyTruthy_strList (ids : List String) :
    pyTruthy (.arr (ids.map JsonVal.str)) = decide (ids ≠ []) := by
  cases ids <;> simp [pyTruthy]

theorem pyContains_strList (ids : List String) (pid : String) :
    pyContains (.arr (ids.map JsonVal.str)) pid = some (decide (pid ∈ ids)) := by
  simp [pyContains, List.elem_eq_mem]

theorem removeFirstMatch_strList (pid : String) (ids : List String) :
    removeFirstMatch pid (ids.map JsonVal.str) = (ids.erase pid).map JsonVal.str := by
  induction ids with
  | nil => simp [removeFirstMatch]
  | cons x xs ih =>
      by_cases h : x = pid
      · simp [removeFirstMatch, h, List.erase_cons_head]
      · rw [List.erase_cons_tail (by simp [h])]
        simp [removeFirstMatch, h, ih]

/-- Behaviour of `add_test_id` on a file that stores an identifier list:
a present `pid` is a pure no-op (no save), an absent one is appended and
saved. -/
theorem add_strList (s : FileState) (ids : List String) (pid : String)
    (hs : storesList s ids) :
    add_test_id pid s =
      if pid ∈ ids then
        ⟨some ⟨200, .obj [("status", .str "added"), ("ids", strList ids)]⟩, s, false⟩
      else
        ⟨some ⟨200, .obj [("status", .str "added"), ("ids", strList (ids ++ [pid]))]⟩,
          save_test_ids (strList (ids ++ [pid])), true⟩ := by
  rw [storesList] at hs
  by_cases h : pid ∈ ids <;>
    simp [add_test_id, hs, strList, pyContains_strList, h]

/-- Behaviour of `delete_test_id` on a file that stores an identifier
list: the first exact match of `pid` (if any) is removed, and the result
is saved unconditionally. -/
theorem delete_strList (s : FileState) (ids : List String) (pid : String)
    (hs : storesList s ids) :
    delete_test_id pid s =
      ⟨some ⟨200, .obj [("status", .str "deleted"), ("ids", strList (ids.erase pid))]⟩,
        save_test_ids (strList (ids.erase pid)), true⟩ := by
  rw [storesList] at hs
  by_cases h : pid ∈ ids
  · simp [delete_test_id, hs, strList, pyContains_strList, h, removeFirstMatch_strList]
  · simp [delete_test_id, hs, strList, pyContains_strList, h, List.erase_of_not_mem h]

/-- C1: in production mode, with a non-empty override list stored in the
backing file, `GET /top-users` returns a 200 success whose `count` is the
list's length and whose `data` is exactly the stored entries in order,
each wrapped as `{"user_pseudo_id": <entry>}`, and the BigQuery fallback
is never entered. -/
theorem top_users_override_hit (s : FileState) (ids : List String) (bq : BQOutcome)
    (hs : storesList s ids) (hne : ids ≠ []) :
    get_top_users "production" s bq =
      ⟨true, false, some ⟨200, .obj [("status", .str "success"),
        ("count", .num ids.length),
        ("data", .arr (ids.map fun pid => .obj [("user_pseudo_id", .str pid)]))]⟩⟩ := by
  rw [storesList] at hs
  simp [get_top_users, hs, strList, pyTruthy_strList, hne, pyLen, wrapRecords,
    Function.comp]

theorem top_users_override_hit_witness :
    get_top_users "production" (mkFile ["a", "b"]) (.rows []) =
      ⟨true, false, some ⟨200, .obj [("status", .str "success"),
        ("count", .num 2),
        ("data", .arr [.obj [("user_pseudo_id", .str "a")],
                       .obj [("user_pseudo_id", .str "b")]])]⟩⟩ :=
  top_users_override_hit (mkFile ["a", "b"]) ["a", "b"] (.rows [])
    (mkFile_storesList ["a", "b"]) (by decide)

/-- C2 (counterexample): `save(load())` is not a no-op on every file state;
on a missing file it creates the file with content `{"ids": []}`. -/
theorem save_load_missing_cex :
    save_test_ids (load_test_ids FileState.missing) ≠ FileState.missing := by
  decide

/-- C2 (amended): for every state of the backing file, `save(load())`
leaves the file content unchanged exactly when the file already holds the
canonical serialization `json.dump({"ids": v})` of some value `v`; for
every other state (missing, unreadable, malformed, different formatting,
extra keys) the call rewrites the file to the canonical serialization of
the loaded value, changing the content. -/
theorem save_load_roundtrip_iff (s : FileState) :
    (save_test_ids (load_test_ids s) = s ↔ ∃ v, s = save_test_ids v) ∧
    ((∀ v, s ≠ save_test_ids v) → save_test_ids (load_test_ids s) ≠ s) := by
  constructor
  · constructor
    · intro h
      exact ⟨load_test_ids s, h.symm⟩
    · rintro ⟨v, rfl⟩
      rw [load_save_test_ids]
  · intro h hc
    exact h (load_test_ids s) hc.symm

theorem save_load_roundtrip_iff_witness :
    save_test_ids (load_test_ids FileState.unreadable) ≠ FileState.unreadable ∧
    save_test_ids (load_test_ids (save_test_ids (.arr [.str "a"]))) =
      save_test_ids (.arr [.str "a"]) :=
  ⟨(save_load_roundtrip_iff FileState.unreadable).2
      (fun _ h => FileState.noConfusion h),
    (save_load_roundtrip_iff (save_test_ids (.arr [.str "a"]))).1.mpr
      ⟨.arr [.str "a"], rfl⟩⟩

/-- C3 (counterexample): it is not the case that every `GET /top-users`
request, in every mode, first consults the override store: in `"testing"`
mode the handler returns the hard-coded list without ever reading the
backing file, even when that file stores a non-empty list. -/
theorem top_users_testing_no_store_cex :
    (get_top_users "testing" (mkFile ["a"]) (.rows [])).consultedStore = false := by
  decide

/-- C3 (amended): only requests outside `"testing"` mode (the production
path) consult the override store, and the BigQuery fallback runs exactly
when such a request finds a falsy (for a list: empty) load result; in
`"testing"` mode neither the store nor the warehouse is touched. -/
theorem top_users_control_flow (mode : String) (s : FileState) (bq : BQOutcome) :
    ((get_top_users mode s bq).consultedStore = true ↔ mode ≠ "testing") ∧
    ((get_top_users mode s bq).queriedWarehouse = true ↔
      mode ≠ "testing" ∧ pyTruthy (load_test_ids s) = false) := by
  by_cases hm : mode = "testing"
  · simp [get_top_users, hm]
  · cases ht : pyTruthy (load_test_ids s) <;> simp [get_top_users, hm, ht]

/-- C4: `POST /test-ids` is idempotent: a `pid` already in the stored list
leaves both the returned list and the file untouched (no save runs), adding
the same `pid` twice gives the same response list and file as adding it
once, and the membership test is exact string equality. -/
theorem add_test_id_idempotent (s : FileState) (ids : List String) (pid : String)
    (hs : storesList s ids) :
    (pid ∈ ids →
      add_test_id pid s =
        ⟨some ⟨200, .obj [("status", .str "added"), ("ids", strList ids)]⟩, s, false⟩) ∧
    add_test_id pid (add_test_id pid s).fileState =
      ⟨(add_test_id pid s).response, (add_test_id pid s).fileState, false⟩ ∧
    pyContains (strList ids) pid = some (decide (pid ∈ ids)) := by
  refine ⟨fun h => by simp [add_strList s ids pid hs, h], ?_,
    by simp [strList, pyContains_strList]⟩
  by_cases h : pid ∈ ids
  · simp [add_strList s ids pid hs, h]
  · have h2 : storesList (save_test_ids (strList (ids ++ [pid]))) (ids ++ [pid]) := by
      simp [storesList, load_save_test_ids]
    rw [add_strList s ids pid hs]
    simp only [h, if_false]
    rw [add_strList _ _ pid h2]
    simp

theorem add_test_id_idempotent_witness :
    (("a" : String) ∈ ["a", "b"]) ∧
    add_test_id "a" (mkFile ["a", "b"]) =
      ⟨some ⟨200, .obj [("status", .str "added"), ("ids", strList ["a", "b"])]⟩,
        mkFile ["a", "b"], false⟩ :=
  ⟨by decide,
    (add_test_id_idempotent (mkFile ["a", "b"]) ["a", "b"] "a"
      (mkFile_storesList ["a", "b"])).1 (by decide)⟩

/-- C5: `DELETE /test-ids/{pid}` with an absent `pid` leaves the stored
list unchanged, still runs the (no-op at list level) save, and still
returns a 200 `{"status": "deleted"}` with the unchanged list; with a
present `pid` only the first exact match is removed. -/
theorem delete_test_id_spec (s : FileState) (ids : List String) (pid : String)
    (hs : storesList s ids) :
    (pid ∉ ids →
      delete_test_id pid s =
        ⟨some ⟨200, .obj [("status", .str "deleted"), ("ids", strList ids)]⟩,
          save_test_ids (strList ids), true⟩) ∧
    (pid ∈ ids →
      delete_test_id pid s =
        ⟨some ⟨200, .obj [("status", .str "deleted"), ("ids", strList (ids.erase pid))]⟩,
          save_test_ids (strList (ids.erase pid)), true⟩) := by
  refine ⟨fun h => ?_, fun _ => delete_strList s ids pid hs⟩
  rw [delete_strList s ids pid hs, List.erase_of_not_mem h]

theorem delete_test_id_spec_witness :
    delete_test_id "z" (mkFile ["a"]) =
      ⟨some ⟨200, .obj [("status", .str "deleted"), ("ids", strList ["a"])]⟩,
        save_test_ids (strList ["a"]), true⟩ :=
  (delete_test_id_spec (mkFile ["a"]) ["a"] "z" (mkFile_storesList ["a"])).1 (by decide)

/-- C6 (counterexample): a malformed backing file that is a JSON object
whose `"ids"` key holds a non-list does not make `load_test_ids` return
the empty sequence: for `{"ids": 5}` the value `5` is returned as-is. -/
theorem load_malformed_not_empty_cex :
    load_test_ids (.validJson "\x7b\"ids\": 5\x7d" (.obj [("ids", .num 5)])) ≠ .arr [] := by
  decide

/-- C6 (amended): `load_test_ids` is total and never surfaces a failure;
it returns the empty sequence whenever the file is missing, unreadable,
not valid JSON, not a JSON object, or an object without an `"ids"` key —
but when the object does have an `"ids"` key, that key's value is returned
as-is, even when it is not a list. -/
theorem load_test_ids_total (s : FileState) :
    load_test_ids s = .arr [] ∨
    ∃ raw kvs, s = .validJson raw (.obj kvs) ∧
      objGet kvs "ids" = some (load_test_ids s) := by
  cases s with
  | missing => exact Or.inl rfl
  | unreadable => exact Or.inl rfl
  | invalidJson raw => exact Or.inl rfl
  | validJson raw v =>
    cases v with
    | null => exact Or.inl rfl
    | bool b => exact Or.inl rfl
    | num n => exact Or.inl rfl
    | str t => exact Or.inl rfl
    | arr xs => exact Or.inl rfl
    | obj kvs =>
      cases h : objGet kvs "ids" with
      | none => exact Or.inl (by simp [load_test_ids, h])
      | some w => exact Or.inr ⟨raw, kvs, rfl, by simp [load_test_ids, h]⟩

/-- C7: in production mode with an empty stored override list, when the
query returns zero rows `GET /top-users` answers 404 with a body that has
a `"message"` entry and no `"data"` key. -/
theorem top_users_empty_store_no_rows (s : FileState) (hs : storesList s []) :
    get_top_users "production" s (.rows []) =
      ⟨true, true, some ⟨404,
        .obj [("message", .str "No data found for the given date range.")]⟩⟩ ∧
    objGet [("message", JsonVal.str "No data found for the given date range.")] "data" =
      none ∧
    objGet [("message", JsonVal.str "No data found for the given date range.")] "message" =
      some (.str "No data found for the given date range.") := by
  rw [storesList] at hs
  exact ⟨by simp [get_top_users, hs, strList, pyTruthy], by decide, by decide⟩

theorem top_users_empty_store_no_rows_witness :
    get_top_users "production" (mkFile []) (.rows []) =
      ⟨true, true, some ⟨404,
        .obj [("message", .str "No data found for the given date range.")]⟩⟩ :=
  (top_users_empty_store_no_rows (mkFile []) (mkFile_storesList [])).1

/-- C8: in production mode with an empty stored override list, any
exception raised inside the BigQuery block makes `GET /top-users` answer
500 with body `{"status": "error", "message": <raw exception text>}`,
uniformly in the message (no error kinds are distinguished), and the
handler itself never lets the exception escape. -/
theorem top_users_empty_store_error (s : FileState) (msg : String)
    (hs : storesList s []) :
    get_top_users "production" s (.raises msg) =
      ⟨true, true, some ⟨500, .obj [("status", .str "error"), ("message", .str msg)]⟩⟩ := by
  rw [storesList] at hs
  simp [get_top_users, hs, strList, pyTruthy]

theorem top_users_empty_store_error_witness :
    get_top_users "production" (mkFile []) (.raises "boom") =
      ⟨true, true, some ⟨500,
        .obj [("status", .str "error"), ("message", .str "boom")]⟩⟩ :=
  top_users_empty_store_error (mkFile []) "boom" (mkFile_storesList [])

/-- C9: adding to a duplicate-free stored list returns and persists a
duplicate-free list (untouched when `pid` is present, appended otherwise),
while `load_test_ids` performs no deduplication: a file whose `"ids"` list
contains duplicates is returned exactly as stored. -/
theorem add_preserves_nodup (s : FileState) (ids : List String) (pid : String)
    (hs : storesList s ids) (hnd : ids.Nodup) :
    ((add_test_id pid s).response =
        some ⟨200, .obj [("status", .str "added"),
          ("ids", strList (if pid ∈ ids then ids else ids ++ [pid]))]⟩ ∧
      load_test_ids (add_test_id pid s).fileState =
        strList (if pid ∈ ids then ids else ids ++ [pid]) ∧
      (if pid ∈ ids then ids else ids ++ [pid]).Nodup) ∧
    (∀ raw (ds : List String),
      load_test_ids (.validJson raw (.obj [("ids", strList ds)])) = strList ds) := by
  constructor
  · by_cases h : pid ∈ ids
    · refine ⟨by simp [add_strList s ids pid hs, h], ?_, by simp [h, hnd]⟩
      simp only [add_strList s ids pid hs, h, if_true]
      rw [storesList] at hs
      simp [hs, h]
    · refine ⟨by simp [add_strList s ids pid hs, h], ?_, ?_⟩
      · simp [add_strList s ids pid hs, h, load_save_test_ids]
      · simp [h, List.nodup_append, hnd]
  · intro raw ds
    simp [load_test_ids, objGet]

theorem add_preserves_nodup_witness :
    (["a", "b"] : List String).Nodup ∧
    (["a", "b", "c"] : List String).Nodup ∧
    (add_test_id "c" (mkFile ["a", "b"])).response =
      some ⟨200, .obj [("status", .str "added"), ("ids", strList ["a", "b", "c"])]⟩ := by
  have h := add_preserves_nodup (mkFile ["a", "b"]) ["a", "b"] "c"
    (mkFile_storesList ["a", "b"]) (by decide)
  have hm : ("c" : String) ∉ (["a", "b"] : List String) := by decide
  refine ⟨by decide, ?_, ?_⟩
  · have h3 := h.1.2.2
    rwa [if_neg hm] at h3
  · have h1 := h.1.1
    rwa [if_neg hm] at h1

/-- C10: the two mutation endpoints differ in when they write the file:
`POST /test-ids` with a `pid` already stored performs no write at all (the
file state, hence its raw content, is unchanged), while
`DELETE /test-ids/{pid}` runs a save on every call, even for an absent
`pid`. -/
theorem mutation_write_frame (s : FileState) (ids : List String) (pid : String)
    (hs : storesList s ids) :
    (pid ∈ ids →
      (add_test_id pid s).fileState = s ∧ (add_test_id pid s).wrote = false) ∧
    (delete_test_id pid s).wrote = true := by
  refine ⟨fun h => by simp [add_strList s ids pid hs, h], ?_⟩
  simp [delete_strList s ids pid hs]

theorem mutation_write_frame_witness :
    ((add_test_id "a" (mkFile ["a"])).fileState = mkFile ["a"] ∧
      (add_test_id "a" (mkFile ["a"])).wrote = false) ∧
    (delete_test_id "z" (mkFile ["a"])).wrote = true :=
  ⟨(mutation_write_frame (mkFile ["a"]) ["a"] "a" (mkFile_storesList ["a"])).1 (by decide),
    (mutation_write_frame (mkFile ["a"]) ["a"] "z" (mkFile_storesList ["a"])).2⟩
